import Mathlib

/-!
Verification development for the `inth-oauth2` OAuth 2.0 client library.

The repository holds two coexisting snapshots of the library:

* the generic snapshot: `src/client/response.rs` (JSON helpers and the
  `ParseError` taxonomy), `src/token/statik.rs`, `src/token/expiring.rs`,
  `src/token/refresh.rs` (lifetime parsing), `src/token/bearer.rs`
  (`Bearer<L>` token parsing) and `src/client/mod.rs` (`auth_uri`,
  `post_token`, `request_token`, `refresh_token`, `ensure_token`);
* the pair-based snapshot: `src/token.rs` (`TokenPair`/`AccessToken`) and
  `src/client.rs` (`token_post` with its `TokenResponse`/`ErrorResponse`
  decoding), modelled below inside namespace `Pair`.

JSON values are embedded as an inductive `Json`; JSON objects are
association lists with first-match lookup (real objects, produced by the
JSON parsers the code uses, have unique keys).  Timestamps are integers
(`Int`, seconds); `UTC::now()` becomes an explicit `now` parameter, and
`UTC::now() + Duration::seconds(n)` becomes `now + n`.  The HTTP transport
is abstracted as a function from the form-encoded body pairs of a request
to the JSON of the response, and operations that perform requests also
return the number of requests issued.
-/

/-- JSON values, mirroring the generic tree the code reads
(`rustc_serialize::json::Json` / `serde_json::Value`): the claims only
involve null, booleans, integers, strings and objects. -/
inductive Json where
  | null : Json
  | bool : Bool → Json
  | int : Int → Json
  | str : String → Json
  | obj : List (String × Json) → Json

/-- A JSON object: association list from field names to values. -/
abbrev JsonObject := List (String × Json)

/-- Field lookup in a JSON object (`BTreeMap::get` / `Map::get` in the
source); first match wins. -/
def lookupField : JsonObject → String → Option Json
  | [], _ => none
  | (k, v) :: rest, key => if k = key then some v else lookupField rest key

/-- `Json::as_string` from `rustc_serialize`: `Some` only on strings. -/
def Json.as_string : Json → Option String
  | .str s => some s
  | _ => none

/-- `Json::as_i64` from `rustc_serialize`: `Some` only on integers. -/
def Json.as_i64 : Json → Option Int
  | .int n => some n
  | _ => none

/-- `ParseError` from `src/client/response.rs` (lines 24-37). -/
inductive ParseError where
  | expectedType (t : String)
  | expectedFieldType (field kind : String)
  | expectedFieldValue (field expected : String)
  | unexpectedField (field : String)
deriving DecidableEq

/-- `JsonHelper::as_object` (`src/client/response.rs` lines 63-68). -/
def Json.as_object : Json → Except ParseError JsonObject
  | .obj o => .ok o
  | _ => .error (.expectedType "object")

/-- `JsonObjectHelper::get_string_option` (`src/client/response.rs`
lines 76-79). -/
def get_string_option (o : JsonObject) (key : String) : Option String :=
  (lookupField o key).bind Json.as_string

/-- `JsonObjectHelper::get_string` (`src/client/response.rs` lines 81-84). -/
def get_string (o : JsonObject) (key : String) : Except ParseError String :=
  match get_string_option o key with
  | some s => .ok s
  | none => .error (.expectedFieldType key "string")

/-- `JsonObjectHelper::get_i64_option` (`src/client/response.rs`
lines 86-89). -/
def get_i64_option (o : JsonObject) (key : String) : Option Int :=
  (lookupField o key).bind Json.as_i64

/-- `JsonObjectHelper::get_i64` (`src/client/response.rs` lines 91-94). -/
def get_i64 (o : JsonObject) (key : String) : Except ParseError Int :=
  match get_i64_option o key with
  | some n => .ok n
  | none => .error (.expectedFieldType key "i64")

/-- `Static` lifetime (`src/token/statik.rs`). -/
inductive Static where
  | mk : Static
deriving DecidableEq

/-- `Lifetime::expired` for `Static` (`src/token/statik.rs` lines 12-14):
always false, independent of the clock. -/
def Static.expired (_ : Static) : Bool := false

/-- `Static::from_response` (`src/token/statik.rs` lines 16-24). -/
def Static.from_response (json : Json) : Except ParseError Static :=
  match json.as_object with
  | .error e => .error e
  | .ok o =>
    if (lookupField o "expires_in").isSome then
      .error (.unexpectedField "expires_in")
    else
      .ok Static.mk

/-- `Refresh` lifetime (`src/token/refresh.rs` lines 10-13): refresh token
plus absolute expiry timestamp. -/
structure Refresh where
  refresh_token : String
  expires : Int
deriving DecidableEq

/-- `Lifetime::expired` for `Refresh` (`src/token/refresh.rs` line 26):
`self.expires < UTC::now()`. -/
def Refresh.expired (r : Refresh) (now : Int) : Bool :=
  decide (r.expires < now)

/-- `Refresh::from_response` (`src/token/refresh.rs` lines 30-40). -/
def Refresh.from_response (now : Int) (json : Json) : Except ParseError Refresh :=
  match json.as_object with
  | .error e => .error e
  | .ok o =>
    match get_string o "refresh_token" with
    | .error e => .error e
    | .ok rt =>
      match get_i64 o "expires_in" with
      | .error e => .error e
      | .ok n => .ok { refresh_token := rt, expires := now + n }

/-- `Refresh::from_response_inherit` (`src/token/refresh.rs` lines 42-55):
`obj.get_string("refresh_token").or(Ok(&prev.refresh_token))` turns any
failure to read `refresh_token` into the previous value. -/
def Refresh.from_response_inherit (now : Int) (json : Json) (prev : Refresh) :
    Except ParseError Refresh :=
  match json.as_object with
  | .error e => .error e
  | .ok o =>
    let rt :=
      match get_string o "refresh_token" with
      | .ok s => s
      | .error _ => prev.refresh_token
    match get_i64 o "expires_in" with
    | .error e => .error e
    | .ok n => .ok { refresh_token := rt, expires := now + n }

/-- `Expiring` lifetime (`src/token/expiring.rs` lines 12-15).  In this
snapshot `Expiring` carries a `refresh_token` field, exactly like
`Refresh`. -/
structure Expiring where
  refresh_token : String
  expires : Int
deriving DecidableEq

/-- `Lifetime::expired` for `Expiring` (`src/token/expiring.rs` line 28). -/
def Expiring.expired (r : Expiring) (now : Int) : Bool :=
  decide (r.expires < now)

/-- `Expiring::from_response` (`src/token/expiring.rs` lines 32-42):
requires a string `refresh_token` and an integer `expires_in`. -/
def Expiring.from_response (now : Int) (json : Json) : Except ParseError Expiring :=
  match json.as_object with
  | .error e => .error e
  | .ok o =>
    match get_string o "refresh_token" with
    | .error e => .error e
    | .ok rt =>
      match get_i64 o "expires_in" with
      | .error e => .error e
      | .ok n => .ok { refresh_token := rt, expires := now + n }

/-- `Expiring::from_response_inherit` (`src/token/expiring.rs`
lines 44-57). -/
def Expiring.from_response_inherit (now : Int) (json : Json) (prev : Expiring) :
    Except ParseError Expiring :=
  match json.as_object with
  | .error e => .error e
  | .ok o =>
    let rt :=
      match get_string o "refresh_token" with
      | .ok s => s
      | .error _ => prev.refresh_token
    match get_i64 o "expires_in" with
    | .error e => .error e
    | .ok n => .ok { refresh_token := rt, expires := now + n }

/-- `Bearer<L>` token (`src/token/bearer.rs` lines 11-15). -/
structure Bearer (L : Type) where
  access_token : String
  scope : Option String
  lifetime : L

/-- `Bearer::from_response_and_lifetime` (`src/token/bearer.rs`
lines 30-47): `token_type` must be exactly `"Bearer"` or `"bearer"`. -/
def Bearer.from_response_and_lifetime {L : Type} (json : Json) (lifetime : L) :
    Except ParseError (Bearer L) :=
  match json.as_object with
  | .error e => .error e
  | .ok o =>
    match get_string o "token_type" with
    | .error e => .error e
    | .ok token_type =>
      if token_type != "Bearer" && token_type != "bearer" then
        .error (.expectedFieldValue "token_type" "Bearer")
      else
        match get_string o "access_token" with
        | .error e => .error e
        | .ok access_token =>
          .ok { access_token := access_token
                scope := get_string_option o "scope"
                lifetime := lifetime }

/-- `Bearer::<Static>::from_response` (`src/token/bearer.rs` lines 50-53):
parse the lifetime from the same flat object first, then the bearer
fields. -/
def Bearer.from_response_static (json : Json) : Except ParseError (Bearer Static) :=
  match Static.from_response json with
  | .error e => .error e
  | .ok lt => Bearer.from_response_and_lifetime json lt

/-- `Bearer::<Refresh>::from_response` (`src/token/bearer.rs`
lines 50-53). -/
def Bearer.from_response_refresh (now : Int) (json : Json) :
    Except ParseError (Bearer Refresh) :=
  match Refresh.from_response now json with
  | .error e => .error e
  | .ok lt => Bearer.from_response_and_lifetime json lt

/-- `Bearer::<Refresh>::from_response_inherit` (`src/token/bearer.rs`
lines 55-58). -/
def Bearer.from_response_inherit_refresh (now : Int) (json : Json)
    (prev : Bearer Refresh) : Except ParseError (Bearer Refresh) :=
  match Refresh.from_response_inherit now json prev.lifetime with
  | .error e => .error e
  | .ok lt => Bearer.from_response_and_lifetime json lt

/-- A provider (`src/provider.rs` trait `Provider`): the two endpoint URIs
and the credentials-in-body flag, reified as data. -/
structure Provider where
  auth_uri : String
  token_uri : String
  credentials_in_body : Bool

/-- `Client<P>` (`src/client/mod.rs` lines 24-36), with the type-level
provider reified as a field. -/
structure Client where
  provider : Provider
  client_id : String
  client_secret : String
  redirect_uri : Option String

/-- One hexadecimal digit, uppercase (percent-encoding). -/
def hexDigit (n : Nat) : Char :=
  if n < 10 then Char.ofNat (48 + n) else Char.ofNat (55 + n)

/-- Percent-encode one byte as `%XX` with uppercase hex digits. -/
def percentEncodeByte (b : Nat) : List Char :=
  ['%', hexDigit (b / 16), hexDigit (b % 16)]

/-- UTF-8 bytes of a character (as `Nat`s below 256). -/
def utf8Bytes (c : Char) : List Nat :=
  let n := c.toNat
  if n < 128 then [n]
  else if n < 2048 then [192 + n / 64, 128 + n % 64]
  else if n < 65536 then [224 + n / 4096, 128 + (n / 64) % 64, 128 + n % 64]
  else [240 + n / 262144, 128 + (n / 4096) % 64, 128 + (n / 64) % 64, 128 + n % 64]

/-- `application/x-www-form-urlencoded` serialization of one character, as
done by the `url` crate's query-pair serializer: ASCII alphanumerics and
`*`, `-`, `.`, `_` pass through, space becomes `+`, everything else is
percent-encoded byte by byte. -/
def formUrlencodeChar (c : Char) : List Char :=
  if c.isAlphanum || c == '*' || c == '-' || c == '.' || c == '_' then [c]
  else if c == ' ' then ['+']
  else ((utf8Bytes c).map percentEncodeByte).flatten

/-- Form-urlencode a string. -/
def formUrlencode (s : String) : String :=
  String.mk ((s.toList.map formUrlencodeChar).flatten)

/-- Serialize query pairs as `k1=v1&k2=v2&...`, both sides form-encoded
(the `url` crate's pair serializer used by both snapshots' `auth_uri`). -/
def serializePairs (ps : List (String × String)) : String :=
  String.intercalate "&" (ps.map fun p => formUrlencode p.1 ++ "=" ++ formUrlencode p.2)

/-- The query pairs appended by `Client::auth_uri` (`src/client/mod.rs`
lines 83-104 and `src/client.rs` lines 152-172), in append order. -/
def Client.auth_query_pairs (c : Client) (scope state : Option String) :
    List (String × String) :=
  let q := [("response_type", "code"), ("client_id", c.client_id)]
  let q := match c.redirect_uri with
    | some r => q ++ [("redirect_uri", r)]
    | none => q
  let q := match scope with
    | some s => q ++ [("scope", s)]
    | none => q
  match state with
  | some s => q ++ [("state", s)]
  | none => q

/-- `Client::auth_uri`: the provider's authorization endpoint (assumed to
be a well-formed absolute URL without a query, as in the source's own
tests; `Url::parse` is abstracted) followed by `?` and the serialized
query pairs.  Pure: no I/O, and the client is taken by shared reference. -/
def Client.auth_uri (c : Client) (scope state : Option String) : String :=
  c.provider.auth_uri ++ "?" ++ serializePairs (c.auth_query_pairs scope state)

/-- The list built from an optional query value, following the spec's
wording "each only when present"; used to state the ordering property. -/
def optPair (key : String) : Option String → List (String × String)
  | some v => [(key, v)]
  | none => []

/-- `Client::post_token` (`src/client/mod.rs` lines 106-136): append the
client credentials to the body when the provider requires them, then issue
exactly one HTTP POST.  The transport is abstracted as a function `http`
from the body pairs to the response JSON; the `Nat` component counts the
requests issued. -/
def Client.post_token (c : Client) (http : List (String × String) → Json)
    (body : List (String × String)) : Json × Nat :=
  let body :=
    if c.provider.credentials_in_body then
      body ++ [("client_id", c.client_id), ("client_secret", c.client_secret)]
    else body
  (http body, 1)

/-- `Client::refresh_token` (`src/client/mod.rs` lines 164-181): build the
`grant_type=refresh_token` body, post it once, and parse the response with
the inherit form against the previous token. -/
def Client.refresh_token (c : Client) (http : List (String × String) → Json)
    (now : Int) (token : Bearer Refresh) (scope : Option String) :
    Except ParseError (Bearer Refresh) × Nat :=
  let body := [("grant_type", "refresh_token"),
               ("refresh_token", token.lifetime.refresh_token)]
  let body := match scope with
    | some s => body ++ [("scope", s)]
    | none => body
  let r := c.post_token http body
  (Bearer.from_response_inherit_refresh now r.1 token, r.2)

/-- `Client::ensure_token` (`src/client/mod.rs` lines 184-191): refresh
with no scope override when expired, otherwise return the token unchanged
without touching the transport. -/
def Client.ensure_token (c : Client) (http : List (String × String) → Json)
    (now : Int) (token : Bearer Refresh) :
    Except ParseError (Bearer Refresh) × Nat :=
  if token.lifetime.expired now then
    c.refresh_token http now token none
  else
    (.ok token, 0)

namespace Pair

/-- `AccessTokenType` (`src/token.rs` lines 20-28). -/
inductive AccessTokenType where
  | bearer : AccessTokenType
  | unrecognized : String → AccessTokenType
deriving DecidableEq

/-- `AccessToken` (`src/token.rs` lines 34-46), expiry as `Option Int`. -/
structure AccessToken where
  token : String
  token_type : AccessTokenType
  expires : Option Int
  scope : Option String
deriving DecidableEq

/-- `RefreshToken` (`src/token.rs` lines 52-55). -/
structure RefreshToken where
  token : String
deriving DecidableEq

/-- `TokenPair` (`src/token.rs` lines 9-14). -/
structure TokenPair where
  access : AccessToken
  refresh : Option RefreshToken
deriving DecidableEq

/-- `TokenResponse` (`src/client.rs` lines 27-34). -/
structure TokenResponse where
  access_token : String
  token_type : String
  expires_in : Option Int
  refresh_token : Option String
  scope : Option String

/-- Decoding of a required `String` struct field under `rustc_serialize`:
the field must be present and a JSON string; a missing field decodes as
null, which fails for `String`. -/
def decodeStringField (o : JsonObject) (key : String) : Option String :=
  match lookupField o key with
  | some (Json.str s) => some s
  | _ => none

/-- Decoding of an `Option<String>` struct field under `rustc_serialize`:
missing or null yields `None`, a string yields `Some`, anything else is a
decode error. -/
def decodeOptStringField (o : JsonObject) (key : String) : Option (Option String) :=
  match lookupField o key with
  | none => some none
  | some Json.null => some none
  | some (Json.str s) => some (some s)
  | some _ => none

/-- Decoding of an `Option<i64>` struct field under `rustc_serialize`. -/
def decodeOptIntField (o : JsonObject) (key : String) : Option (Option Int) :=
  match lookupField o key with
  | none => some none
  | some Json.null => some none
  | some (Json.int n) => some (some n)
  | some _ => none

/-- `json::decode::<TokenResponse>` (`src/client.rs` line 207): the value
must be an object; the five declared fields are decoded, unknown fields
are ignored. -/
def decodeTokenResponse (j : Json) : Option TokenResponse :=
  match j with
  | Json.obj o =>
    match decodeStringField o "access_token", decodeStringField o "token_type",
          decodeOptIntField o "expires_in", decodeOptStringField o "refresh_token",
          decodeOptStringField o "scope" with
    | some a, some t, some e, some r, some s =>
      some { access_token := a, token_type := t, expires_in := e,
             refresh_token := r, scope := s }
    | _, _, _, _, _ => none
  | _ => none

/-- `OAuth2ErrorCode` (`src/error.rs` lines 14-41). -/
inductive OAuth2ErrorCode where
  | invalidRequest
  | invalidClient
  | invalidGrant
  | unauthorizedClient
  | unsupportedGrantType
  | invalidScope
  | unrecognized (s : String)
deriving DecidableEq

/-- The error-code string mapping (`src/client.rs` lines 62-70 and
`src/error.rs` lines 43-55): unrecognized codes keep the original text. -/
def OAuth2ErrorCode.from_str (s : String) : OAuth2ErrorCode :=
  if s = "invalid_request" then .invalidRequest
  else if s = "invalid_client" then .invalidClient
  else if s = "invalid_grant" then .invalidGrant
  else if s = "unauthorized_client" then .unauthorizedClient
  else if s = "unsupported_grant_type" then .unsupportedGrantType
  else if s = "invalid_scope" then .invalidScope
  else .unrecognized s

/-- `OAuth2Error` (`src/error.rs` lines 61-70). -/
structure OAuth2Error where
  code : OAuth2ErrorCode
  description : Option String
  uri : Option String
deriving DecidableEq

/-- `ErrorResponse` (`src/client.rs` lines 54-58). -/
structure ErrorResponse where
  error : String
  error_description : Option String
  error_uri : Option String

/-- `json::decode::<ErrorResponse>` (`src/client.rs` line 212). -/
def decodeErrorResponse (j : Json) : Option ErrorResponse :=
  match j with
  | Json.obj o =>
    match decodeStringField o "error", decodeOptStringField o "error_description",
          decodeOptStringField o "error_uri" with
    | some e, some d, some u =>
      some { error := e, error_description := d, error_uri := u }
    | _, _, _ => none
  | _ => none

/-- `ErrorResponse` to `OAuth2Error` conversion (`src/client.rs`
lines 60-77). -/
def ErrorResponse.intoOAuth2Error (e : ErrorResponse) : OAuth2Error :=
  { code := OAuth2ErrorCode.from_str e.error
    description := e.error_description
    uri := e.error_uri }

/-- `TokenResponse` to `TokenPair` conversion (`src/client.rs`
lines 36-51); `UTC::now()` is the explicit `now`. -/
def TokenResponse.intoTokenPair (now : Int) (t : TokenResponse) : TokenPair :=
  { access :=
      { token := t.access_token
        token_type :=
          if t.token_type = "Bearer" ∨ t.token_type = "bearer" then
            AccessTokenType.bearer
          else
            AccessTokenType.unrecognized t.token_type
        expires := t.expires_in.map (fun s => now + s)
        scope := t.scope }
    refresh := t.refresh_token.map (fun s => { token := s }) }

/-- The error taxonomy of `token_post` restricted to what response-body
interpretation can produce: an RFC 6749 error object, or a JSON decode
failure of both shapes. -/
inductive ClientError where
  | oauth2 (e : OAuth2Error)
  | json
deriving DecidableEq

/-- The response-body interpretation step of `Client::token_post`
(`src/client.rs` lines 207-213): first try to decode the body as a
`TokenResponse` and return the token on success; only if that fails,
decode an `ErrorResponse` and fail with the corresponding OAuth2 error
(or a JSON error when neither shape matches).  The transport and body
building (lines 195-205) are abstracted: `body` is the response body,
already parsed as JSON. -/
def token_post (now : Int) (body : Json) : Except ClientError TokenPair :=
  match decodeTokenResponse body with
  | some t => .ok (t.intoTokenPair now)
  | none =>
    match decodeErrorResponse body with
    | some e => .error (.oauth2 e.intoOAuth2Error)
    | none => .error .json

end Pair

/-- C1: Inherit parsing carries the refresh token forward.  For every
previous `Refresh` lifetime `p` and every JSON object with an integer
`expires_in` but no `refresh_token` field, `from_response_inherit`
succeeds with `p`'s refresh token and expiry recomputed as
`now + expires_in`; if `expires_in` is absent it fails with a
`ParseError` (concretely `ExpectedFieldType("expires_in","i64")`)
regardless of the previous value. -/
theorem C1_inherit_carries_refresh_token :
    (∀ (o : JsonObject) (p : Refresh) (now n : Int),
      lookupField o "refresh_token" = none →
      lookupField o "expires_in" = some (Json.int n) →
      Refresh.from_response_inherit now (Json.obj o) p =
        Except.ok { refresh_token := p.refresh_token, expires := now + n }) ∧
    (∀ (o : JsonObject) (p : Refresh) (now : Int),
      lookupField o "expires_in" = none →
      Refresh.from_response_inherit now (Json.obj o) p =
        Except.error (ParseError.expectedFieldType "expires_in" "i64")) := by
  constructor
  · intro o p now n h1 h2
    simp [Refresh.from_response_inherit, Json.as_object, get_string,
      get_string_option, get_i64, get_i64_option, h1, h2, Json.as_i64]
  · intro o p now h
    simp [Refresh.from_response_inherit, Json.as_object, get_i64,
      get_i64_option, h]

/-- Witness for C1: the spec's own example, a previous lifetime with
refresh token `"bbbbbbbb"` re-parsed from a response with only
`expires_in`, and the failure case with `expires_in` absent. -/
theorem C1_inherit_carries_refresh_token_witness :
    Refresh.from_response_inherit 1000 (Json.obj [("expires_in", Json.int 3600)])
        { refresh_token := "bbbbbbbb", expires := 500 } =
      Except.ok { refresh_token := "bbbbbbbb", expires := 4600 } ∧
    Refresh.from_response_inherit 1000 (Json.obj [])
        { refresh_token := "bbbbbbbb", expires := 500 } =
      Except.error (ParseError.expectedFieldType "expires_in" "i64") :=
  ⟨C1_inherit_carries_refresh_token.1 [("expires_in", Json.int 3600)]
      { refresh_token := "bbbbbbbb", expires := 500 } 1000 3600 rfl rfl,
   C1_inherit_carries_refresh_token.2 []
      { refresh_token := "bbbbbbbb", expires := 500 } 1000 rfl⟩

/-- C5: `Static` lifetime parsing and expiry.  The empty object parses to
the `Static` lifetime, `expired()` is false on every call, and any object
containing an `expires_in` field (whatever its value) is rejected with
`UnexpectedField("expires_in")`. -/
theorem C5_static_lifetime :
    Static.from_response (Json.obj []) = Except.ok Static.mk ∧
    (∀ st : Static, st.expired = false) ∧
    (∀ (o : JsonObject) (v : Json),
      lookupField o "expires_in" = some v →
      Static.from_response (Json.obj o) =
        Except.error (ParseError.unexpectedField "expires_in")) := by
  refine ⟨rfl, fun _ => rfl, ?_⟩
  intro o v h
  simp [Static.from_response, Json.as_object, h]

/-- Witness for C5: `expires_in: 3600` makes `Static` parsing fail. -/
theorem C5_static_lifetime_witness :
    Static.from_response (Json.obj [("expires_in", Json.int 3600)]) =
      Except.error (ParseError.unexpectedField "expires_in") :=
  C5_static_lifetime.2.2 [("expires_in", Json.int 3600)] (Json.int 3600) rfl

/-- C9: `expires_in` is accepted as any i64 with no positivity check.
Parsing succeeds for every integer `n`, including zero and negative
values, with expiry `now + n`; a negative `n` makes `expired()` true even
at the instant of parsing, and a non-positive `n` makes it true at every
later instant, rather than producing a parse error. -/
theorem C9_expires_in_no_positivity_check :
    ∀ (s : String) (n now : Int),
      Refresh.from_response now
          (Json.obj [("refresh_token", Json.str s), ("expires_in", Json.int n)]) =
        Except.ok { refresh_token := s, expires := now + n } ∧
      (n < 0 →
        Refresh.expired { refresh_token := s, expires := now + n } now = true) ∧
      (n ≤ 0 → ∀ t : Int, now < t →
        Refresh.expired { refresh_token := s, expires := now + n } t = true) := by
  intro s n now
  refine ⟨rfl, ?_, ?_⟩
  · intro h
    simp only [Refresh.expired, decide_eq_true_eq]
    omega
  · intro h t ht
    simp only [Refresh.expired, decide_eq_true_eq]
    omega

/-- Witness for C9: `expires_in = -1` parses and is expired immediately;
`expires_in = 0` parses and is expired one second later. -/
theorem C9_expires_in_no_positivity_check_witness :
    Refresh.from_response 1000
        (Json.obj [("refresh_token", Json.str "x"), ("expires_in", Json.int (-1))]) =
      Except.ok { refresh_token := "x", expires := 999 } ∧
    Refresh.expired { refresh_token := "x", expires := 999 } 1000 = true ∧
    Refresh.expired { refresh_token := "x", expires := 1000 } 1001 = true := by
  have h := C9_expires_in_no_positivity_check "x" (-1) 1000
  have h0 := C9_expires_in_no_positivity_check "x" 0 1000
  refine ⟨?_, ?_, ?_⟩
  · simpa using h.1
  · simpa using h.2.1 (by decide)
  · simpa using h0.2.2 (by decide) 1001 (by decide)

/-- C10: in inherit parsing, a `refresh_token` field that is present but
not a string is treated like an absent field: with an integer
`expires_in`, `from_response_inherit` succeeds and carries forward the
previous refresh token (for both `Refresh` and `Expiring`), instead of
failing with `ExpectedFieldType("refresh_token","string")`. -/
theorem C10_nonstring_refresh_token_inherited :
    ∀ (o : JsonObject) (v : Json) (n now : Int) (p : Refresh) (q : Expiring),
      lookupField o "refresh_token" = some v →
      Json.as_string v = none →
      lookupField o "expires_in" = some (Json.int n) →
      Refresh.from_response_inherit now (Json.obj o) p =
        Except.ok { refresh_token := p.refresh_token, expires := now + n } ∧
      Expiring.from_response_inherit now (Json.obj o) q =
        Except.ok { refresh_token := q.refresh_token, expires := now + n } := by
  intro o v n now p q h1 h2 h3
  constructor
  · simp [Refresh.from_response_inherit, Json.as_object, get_string,
      get_string_option, get_i64, get_i64_option, h1, h2, h3, Json.as_i64]
  · simp [Expiring.from_response_inherit, Json.as_object, get_string,
      get_string_option, get_i64, get_i64_option, h1, h2, h3, Json.as_i64]

/-- Witness for C10: a numeric `refresh_token` is ignored and the
previous refresh token `"aaaaaaaa"` is carried forward. -/
theorem C10_nonstring_refresh_token_inherited_witness :
    Refresh.from_response_inherit 1000
        (Json.obj [("refresh_token", Json.int 7), ("expires_in", Json.int 3600)])
        { refresh_token := "aaaaaaaa", expires := 500 } =
      Except.ok { refresh_token := "aaaaaaaa", expires := 4600 } ∧
    Expiring.from_response_inherit 1000
        (Json.obj [("refresh_token", Json.int 7), ("expires_in", Json.int 3600)])
        { refresh_token := "aaaaaaaa", expires := 500 } =
      Except.ok { refresh_token := "aaaaaaaa", expires := 4600 } :=
  C10_nonstring_refresh_token_inherited
    [("refresh_token", Json.int 7), ("expires_in", Json.int 3600)]
    (Json.int 7) 3600 1000
    { refresh_token := "aaaaaaaa", expires := 500 }
    { refresh_token := "aaaaaaaa", expires := 500 } rfl rfl rfl

/-- C3 counterexample: the claim says `Expiring::from_response` rejects
any object containing a `refresh_token` field with
`UnexpectedField("refresh_token")` and succeeds on objects with only an
integer `expires_in`.  On the code both directions fail: an object with a
string `refresh_token` and `expires_in` parses successfully, and an
object with only `expires_in` fails with
`ExpectedFieldType("refresh_token","string")`. -/
theorem C3_expiring_rejects_refresh_token_counterexample :
    Expiring.from_response 1000
        (Json.obj [("refresh_token", Json.str "aaaaaaaa"), ("expires_in", Json.int 3600)]) =
      Except.ok { refresh_token := "aaaaaaaa", expires := 4600 } ∧
    Expiring.from_response 1000 (Json.obj [("expires_in", Json.int 3600)]) =
      Except.error (ParseError.expectedFieldType "refresh_token" "string") :=
  ⟨rfl, rfl⟩

/-- C3 amended: in this snapshot `Expiring::from_response` behaves like
`Refresh::from_response`: it requires a string `refresh_token` (failing
with `ExpectedFieldType("refresh_token","string")` when the field is
absent) and an integer `expires_in` (failing with
`ExpectedFieldType("expires_in","i64")` when that is absent), and on
success sets the expiry to `now + expires_in`. -/
theorem C3_expiring_requires_refresh_token :
    ∀ (o : JsonObject) (now : Int),
      (lookupField o "refresh_token" = none →
        Expiring.from_response now (Json.obj o) =
          Except.error (ParseError.expectedFieldType "refresh_token" "string")) ∧
      (∀ (s : String) (n : Int),
        lookupField o "refresh_token" = some (Json.str s) →
        lookupField o "expires_in" = some (Json.int n) →
        Expiring.from_response now (Json.obj o) =
          Except.ok { refresh_token := s, expires := now + n }) ∧
      (∀ s : String,
        lookupField o "refresh_token" = some (Json.str s) →
        lookupField o "expires_in" = none →
        Expiring.from_response now (Json.obj o) =
          Except.error (ParseError.expectedFieldType "expires_in" "i64")) := by
  intro o now
  refine ⟨?_, ?_, ?_⟩
  · intro h
    simp [Expiring.from_response, Json.as_object, get_string, get_string_option, h]
  · intro s n h1 h2
    simp [Expiring.from_response, Json.as_object, get_string, get_string_option,
      get_i64, get_i64_option, h1, h2, Json.as_string, Json.as_i64]
  · intro s h1 h2
    simp [Expiring.from_response, Json.as_object, get_string, get_string_option,
      get_i64, get_i64_option, h1, h2, Json.as_string]

/-- Witness for C3 amended: the three branches at concrete inputs. -/
theorem C3_expiring_requires_refresh_token_witness :
    Expiring.from_response 1000 (Json.obj []) =
      Except.error (ParseError.expectedFieldType "refresh_token" "string") ∧
    Expiring.from_response 1000
        (Json.obj [("refresh_token", Json.str "bbbbbbbb"), ("expires_in", Json.int 3600)]) =
      Except.ok { refresh_token := "bbbbbbbb", expires := 4600 } ∧
    Expiring.from_response 1000 (Json.obj [("refresh_token", Json.str "bbbbbbbb")]) =
      Except.error (ParseError.expectedFieldType "expires_in" "i64") := by
  refine ⟨(C3_expiring_requires_refresh_token [] 1000).1 rfl, ?_, ?_⟩
  · simpa using
      (C3_expiring_requires_refresh_token
        [("refresh_token", Json.str "bbbbbbbb"), ("expires_in", Json.int 3600)] 1000).2.1
        "bbbbbbbb" 3600 rfl rfl
  · exact
      (C3_expiring_requires_refresh_token
        [("refresh_token", Json.str "bbbbbbbb")] 1000).2.2 "bbbbbbbb" rfl rfl

/-- C4 counterexample: the claim says `token_type` matching is
case-insensitive, so `"BEARER"` should be accepted; the code compares
against exactly `"Bearer"` and `"bearer"` and rejects `"BEARER"` with
`ExpectedFieldValue("token_type","Bearer")`. -/
theorem C4_token_type_case_insensitive_counterexample :
    Bearer.from_response_and_lifetime
        (Json.obj [("token_type", Json.str "BEARER"), ("access_token", Json.str "aaaaaaaa")])
        Static.mk =
      Except.error (ParseError.expectedFieldValue "token_type" "Bearer") :=
  rfl

/-- C4 amended: `token_type` validation accepts exactly the two spellings
`"Bearer"` and `"bearer"`; every other string value — including other
capitalizations such as `"BEARER"`, and `"MAC"` — fails with
`ExpectedFieldValue("token_type","Bearer")`. -/
theorem C4_token_type_two_spellings :
    ∀ {L : Type} (o : JsonObject) (lt : L) (s a : String),
      lookupField o "token_type" = some (Json.str s) →
      lookupField o "access_token" = some (Json.str a) →
      ((s = "Bearer" ∨ s = "bearer") →
        Bearer.from_response_and_lifetime (Json.obj o) lt =
          Except.ok { access_token := a, scope := get_string_option o "scope",
                      lifetime := lt }) ∧
      (s ≠ "Bearer" → s ≠ "bearer" →
        Bearer.from_response_and_lifetime (Json.obj o) lt =
          Except.error (ParseError.expectedFieldValue "token_type" "Bearer")) := by
  intro L o lt s a h1 h2
  constructor
  · intro hs
    rcases hs with hs | hs <;>
      simp [Bearer.from_response_and_lifetime, Json.as_object, get_string,
        get_string_option, h1, h2, Json.as_string, hs]
  · intro hs1 hs2
    simp [Bearer.from_response_and_lifetime, Json.as_object, get_string,
      get_string_option, h1, Json.as_string, hs1, hs2]

/-- Witness for C4 amended: `"bearer"` is accepted, `"MAC"` is rejected. -/
theorem C4_token_type_two_spellings_witness :
    Bearer.from_response_and_lifetime
        (Json.obj [("token_type", Json.str "bearer"), ("access_token", Json.str "aaaaaaaa")])
        Static.mk =
      Except.ok { access_token := "aaaaaaaa", scope := none, lifetime := Static.mk } ∧
    Bearer.from_response_and_lifetime
        (Json.obj [("token_type", Json.str "MAC"), ("access_token", Json.str "aaaaaaaa")])
        Static.mk =
      Except.error (ParseError.expectedFieldValue "token_type" "Bearer") := by
  constructor
  · simpa using
      (C4_token_type_two_spellings
        [("token_type", Json.str "bearer"), ("access_token", Json.str "aaaaaaaa")]
        Static.mk "bearer" "aaaaaaaa" rfl rfl).1 (Or.inr rfl)
  · exact
      (C4_token_type_two_spellings
        [("token_type", Json.str "MAC"), ("access_token", Json.str "aaaaaaaa")]
        Static.mk "MAC" "aaaaaaaa" rfl rfl).2 (by decide) (by decide)

/-- C6 counterexample: the claim says a `Static` provider receiving a
response containing a `refresh_token` field fails with a `ParseError`.
The code only checks for `expires_in`: a bearer response that carries
`refresh_token` but no `expires_in` parses successfully for a `Static`
provider, silently ignoring the field. -/
theorem C6_static_refresh_token_counterexample :
    Bearer.from_response_static
        (Json.obj [("token_type", Json.str "Bearer"),
                   ("access_token", Json.str "aaaaaaaa"),
                   ("refresh_token", Json.str "bbbbbbbb")]) =
      Except.ok { access_token := "aaaaaaaa", scope := none, lifetime := Static.mk } :=
  rfl

/-- C6 amended: lifetime-shape mismatch is detected only through the
fields each variant actually checks.  A `Static` provider rejects any
object containing `expires_in` with `UnexpectedField("expires_in")` (so a
full refresh-style response, which carries `expires_in`, is a hard parse
error) and accepts any object without `expires_in`, ignoring an
unmodelled `refresh_token` field; conversely an `Expiring`/`Refresh`
provider receiving a static-shaped response without `refresh_token` fails
with `ExpectedFieldType("refresh_token","string")`. -/
theorem C6_shape_mismatch_checked_fields :
    ∀ (o : JsonObject) (now : Int),
      ((lookupField o "expires_in").isSome = false →
        Static.from_response (Json.obj o) = Except.ok Static.mk) ∧
      ((lookupField o "expires_in").isSome = true →
        Static.from_response (Json.obj o) =
          Except.error (ParseError.unexpectedField "expires_in")) ∧
      (lookupField o "refresh_token" = none →
        Expiring.from_response now (Json.obj o) =
          Except.error (ParseError.expectedFieldType "refresh_token" "string") ∧
        Refresh.from_response now (Json.obj o) =
          Except.error (ParseError.expectedFieldType "refresh_token" "string")) := by
  intro o now
  refine ⟨?_, ?_, ?_⟩
  · intro h
    simp [Static.from_response, Json.as_object, h]
  · intro h
    simp [Static.from_response, Json.as_object, h]
  · intro h
    constructor
    · simp [Expiring.from_response, Json.as_object, get_string, get_string_option, h]
    · simp [Refresh.from_response, Json.as_object, get_string, get_string_option, h]

/-- Witness for C6 amended: a refresh-style response (with `expires_in`)
is rejected by `Static`, and a static-style response (no `refresh_token`)
is rejected by `Expiring` and `Refresh`. -/
theorem C6_shape_mismatch_checked_fields_witness :
    Static.from_response
        (Json.obj [("refresh_token", Json.str "bbbbbbbb"), ("expires_in", Json.int 3600)]) =
      Except.error (ParseError.unexpectedField "expires_in") ∧
    Expiring.from_response 1000 (Json.obj [("token_type", Json.str "Bearer")]) =
      Except.error (ParseError.expectedFieldType "refresh_token" "string") ∧
    Refresh.from_response 1000 (Json.obj [("token_type", Json.str "Bearer")]) =
      Except.error (ParseError.expectedFieldType "refresh_token" "string") :=
  ⟨(C6_shape_mismatch_checked_fields
      [("refresh_token", Json.str "bbbbbbbb"), ("expires_in", Json.int 3600)] 1000).2.1 rfl,
   ((C6_shape_mismatch_checked_fields
      [("token_type", Json.str "Bearer")] 1000).2.2 rfl).1,
   ((C6_shape_mismatch_checked_fields
      [("token_type", Json.str "Bearer")] 1000).2.2 rfl).2⟩

/-- C7: `auth_uri` appends query parameters in the exact order
`response_type=code`, `client_id`, then `redirect_uri`, `scope`, `state`
(each only when present), percent-encoding all values.  Against the test
provider endpoint `http://example.com/oauth2/auth` with client id `foo`
and no redirect URI, `auth_uri(None, None)` is exactly
`http://example.com/oauth2/auth?response_type=code&client_id=foo`, and
with redirect URI `http://example.com/oauth2/callback` it additionally
appends the percent-encoded `redirect_uri` pair.  `auth_uri` is a pure
function of the client and its arguments: no I/O, no mutation. -/
theorem C7_auth_uri_query_order :
    (∀ (c : Client) (scope state : Option String),
      c.auth_uri scope state =
        c.provider.auth_uri ++ "?" ++ serializePairs
          ([("response_type", "code"), ("client_id", c.client_id)] ++
            optPair "redirect_uri" c.redirect_uri ++
            optPair "scope" scope ++ optPair "state" state)) ∧
    Client.auth_uri
        { provider := { auth_uri := "http://example.com/oauth2/auth",
                        token_uri := "http://example.com/oauth2/token",
                        credentials_in_body := false },
          client_id := "foo", client_secret := "bar", redirect_uri := none }
        none none =
      "http://example.com/oauth2/auth?response_type=code&client_id=foo" ∧
    Client.auth_uri
        { provider := { auth_uri := "http://example.com/oauth2/auth",
                        token_uri := "http://example.com/oauth2/token",
                        credentials_in_body := false },
          client_id := "foo", client_secret := "bar",
          redirect_uri := some "http://example.com/oauth2/callback" }
        none none =
      "http://example.com/oauth2/auth?response_type=code&client_id=foo&redirect_uri=http%3A%2F%2Fexample.com%2Foauth2%2Fcallback" := by
  refine ⟨?_, by decide, by decide⟩
  intro c scope state
  unfold Client.auth_uri Client.auth_query_pairs
  cases c.redirect_uri <;> cases scope <;> cases state <;> simp [optPair]

/-- C8: `ensure_token` is conditional on expiry and otherwise an
identity.  When the token's lifetime is not expired it returns the very
same token and issues zero requests; when it is expired it delegates to
`refresh_token` with no scope override, which issues exactly one
request. -/
theorem C8_ensure_token_conditional :
    ∀ (c : Client) (http : List (String × String) → Json) (now : Int)
      (token : Bearer Refresh),
      (token.lifetime.expired now = false →
        c.ensure_token http now token = (Except.ok token, 0)) ∧
      (token.lifetime.expired now = true →
        c.ensure_token http now token = c.refresh_token http now token none ∧
        (c.refresh_token http now token none).2 = 1) := by
  intro c http now token
  constructor
  · intro h
    simp [Client.ensure_token, h]
  · intro h
    refine ⟨by simp [Client.ensure_token, h], rfl⟩

/-- Witness for C8: a concrete unexpired token is returned unchanged with
zero requests; a concrete expired token goes through `refresh_token`,
with exactly one request issued. -/
theorem C8_ensure_token_conditional_witness :
    Client.ensure_token
        { provider := { auth_uri := "a", token_uri := "t", credentials_in_body := false },
          client_id := "id", client_secret := "sec", redirect_uri := none }
        (fun _ => Json.null) 1000
        { access_token := "at", scope := none,
          lifetime := { refresh_token := "rt", expires := 2000 } } =
      (Except.ok { access_token := "at", scope := none,
                   lifetime := { refresh_token := "rt", expires := 2000 } }, 0) ∧
    Client.ensure_token
        { provider := { auth_uri := "a", token_uri := "t", credentials_in_body := false },
          client_id := "id", client_secret := "sec", redirect_uri := none }
        (fun _ => Json.null) 1000
        { access_token := "at", scope := none,
          lifetime := { refresh_token := "rt", expires := 500 } } =
      Client.refresh_token
        { provider := { auth_uri := "a", token_uri := "t", credentials_in_body := false },
          client_id := "id", client_secret := "sec", redirect_uri := none }
        (fun _ => Json.null) 1000
        { access_token := "at", scope := none,
          lifetime := { refresh_token := "rt", expires := 500 } } none ∧
    (Client.refresh_token
        { provider := { auth_uri := "a", token_uri := "t", credentials_in_body := false },
          client_id := "id", client_secret := "sec", redirect_uri := none }
        (fun _ => Json.null) 1000
        { access_token := "at", scope := none,
          lifetime := { refresh_token := "rt", expires := 500 } } none).2 = 1 :=
  ⟨(C8_ensure_token_conditional _ (fun _ => Json.null) 1000
      { access_token := "at", scope := none,
        lifetime := { refresh_token := "rt", expires := 2000 } }).1 (by decide),
   ((C8_ensure_token_conditional _ (fun _ => Json.null) 1000
      { access_token := "at", scope := none,
        lifetime := { refresh_token := "rt", expires := 500 } }).2 (by decide)).1,
   ((C8_ensure_token_conditional _ (fun _ => Json.null) 1000
      { access_token := "at", scope := none,
        lifetime := { refresh_token := "rt", expires := 500 } }).2 (by decide)).2⟩

/-- C2 counterexample: the claim says error-shape parsing is attempted
before or in preference to token-shape parsing, so a response with a
string `error` field must never fall through to token parsing.  In
`Client::token_post` the token shape is tried first: a body that decodes
as a `TokenResponse` and also carries a string `error` field yields the
token, not the OAuth2 error. -/
theorem C2_error_preference_counterexample :
    lookupField
        [("token_type", Json.str "Bearer"), ("access_token", Json.str "aaaaaaaa"),
         ("error", Json.str "invalid_request")] "error" =
      some (Json.str "invalid_request") ∧
    Pair.token_post 1000
        (Json.obj [("token_type", Json.str "Bearer"),
                   ("access_token", Json.str "aaaaaaaa"),
                   ("error", Json.str "invalid_request")]) =
      Except.ok
        { access := { token := "aaaaaaaa", token_type := Pair.AccessTokenType.bearer,
                      expires := none, scope := none },
          refresh := none } :=
  ⟨rfl, rfl⟩

/-- C2 amended: `token_post` attempts token-shape decoding first and
falls back to error-shape parsing only when the body is not a valid
`TokenResponse`: an OAuth2 error is ever returned only for bodies whose
token-shape decode fails.  For such bodies — in particular
`error=invalid_request` with `error_description` `"example"` and
`error_uri` `"https://example.com/error"`, which has no token fields —
the corresponding `OAuth2Error` is returned, not a parse error. -/
theorem C2_token_shape_tried_first :
    (∀ (now : Int) (j : Json) (e : Pair.OAuth2Error),
      Pair.token_post now j = Except.error (Pair.ClientError.oauth2 e) →
      Pair.decodeTokenResponse j = none) ∧
    Pair.token_post 1000
        (Json.obj [("error", Json.str "invalid_request"),
                   ("error_description", Json.str "example"),
                   ("error_uri", Json.str "https://example.com/error")]) =
      Except.error (Pair.ClientError.oauth2
        { code := Pair.OAuth2ErrorCode.invalidRequest,
          description := some "example",
          uri := some "https://example.com/error" }) := by
  constructor
  · intro now j e h
    unfold Pair.token_post at h
    cases hd : Pair.decodeTokenResponse j with
    | none => rfl
    | some t => rw [hd] at h; exact absurd h (by simp)
  · rfl

/-- Witness for C2 amended: applying the precedence property at the
concrete error body shows its token-shape decode indeed fails. -/
theorem C2_token_shape_tried_first_witness :
    Pair.decodeTokenResponse
        (Json.obj [("error", Json.str "invalid_request"),
                   ("error_description", Json.str "example"),
                   ("error_uri", Json.str "https://example.com/error")]) = none :=
  C2_token_shape_tried_first.1 1000
    (Json.obj [("error", Json.str "invalid_request"),
               ("error_description", Json.str "example"),
               ("error_uri", Json.str "https://example.com/error")])
    { code := Pair.OAuth2ErrorCode.invalidRequest,
      description := some "example",
      uri := some "https://example.com/error" }
    C2_token_shape_tried_first.2
